import Mathlib

/-!
Verification development for the model-catalogue extraction pipeline.

Shallow embedding of the Python sources:
  * backend/app/services/llm_service.py        (retryable transport and orchestrator)
  * backend/app/api/v1/extraction_helpers.py   (validate and convert helpers)
  * backend/app/api/v1/models.py               (create_model endpoint)
  * backend/app/api/v1/extraction.py           (extract_and_create_model endpoint)
  * backend/app/schemas/extraction.py          (ExtractRequest length bound)
  * backend/app/models/models.py               (ModelBase / ModelCreate schema)

The external Claude provider is modelled as an oracle: a function from the
request and the attempt index to either a response or an API error.  Sleeps
are recorded as a list of rational durations rather than actually waited.
-/

set_option autoImplicit false

namespace ModelCatalogue

/-- Calendar date as carried by `datetime.date` (year, month, day). -/
structure PyDate where
  year : Nat
  month : Nat
  day : Nat
deriving DecidableEq

/-- `ExtractedModel` from llm_service.py: schema for AI model data extracted
by the LLM.  `model_name` and `description` are required, the rest optional. -/
structure ExtractedModel where
  model_name : String
  organization : Option String
  release_date : Option PyDate
  description : String
  license : Option String
deriving DecidableEq

/-- Token usage counters carried by a provider response (`response.usage`). -/
structure Usage where
  input_tokens : Nat
  output_tokens : Nat
  cache_creation_input_tokens : Nat
  cache_read_input_tokens : Nat
deriving DecidableEq

/-- Raw provider response: the structured payload parsed against the
`ExtractedModel` schema (`parsed_output`, possibly null) plus usage. -/
structure Response where
  parsed_output : Option ExtractedModel
  usage : Usage
deriving DecidableEq

/-- The anthropic-client exception classes that `_call_claude_with_retry`
distinguishes.  The first three are caught by the transient-errors clause;
`otherAPIError` stands for any other `APIError` (invalid request, auth, ...).
Each carries its message (`str(e)`). -/
inductive APIErr where
  | rateLimitError (msg : String)
  | internalServerError (msg : String)
  | apiConnectionError (msg : String)
  | otherAPIError (msg : String)
deriving DecidableEq

/-- Whether the error is caught by
`except (RateLimitError, InternalServerError, APIConnectionError)`. -/
def retryable : APIErr → Bool
  | .rateLimitError _ => true
  | .internalServerError _ => true
  | .apiConnectionError _ => true
  | .otherAPIError _ => false

/-- The message `str(e)` of an API error. -/
def APIErr.message : APIErr → String
  | .rateLimitError m => m
  | .internalServerError m => m
  | .apiConnectionError m => m
  | .otherAPIError m => m

/-- How a `_call_claude_with_retry` invocation fails: either the final
attempt failed with a transient error (raised at the
`if attempt == max_retries` branch after the exhaustion log) or a
non-retryable `APIError` was re-raised immediately.  In Python the same
exception object is re-raised in both cases; the constructor records which
raise site fired. -/
inductive CallFailure where
  | exhausted (e : APIErr)
  | nonRetryable (e : APIErr)
deriving DecidableEq

/-- Observable outcome of one `_call_claude_with_retry` invocation:
how many times the provider was called, the sleeps performed between
attempts (in order), and the returned response or raised failure. -/
structure CallResult where
  calls : Nat
  sleeps : List ℚ
  result : Except CallFailure Response

/-- The loop body of `_call_claude_with_retry`, unrolled by recursion on the
number of attempts still allowed after the current one
(`remaining = max_retries - attempt`).  `provider j` is the result of the
j-th provider call (0-based `attempt` in the Python loop). -/
def retryFrom (provider : Nat → Except APIErr Response) (attempt : Nat) (delay : ℚ) :
    Nat → CallResult
  | 0 =>
    match provider attempt with
    | .ok r => ⟨1, [], .ok r⟩
    | .error e =>
      if retryable e then ⟨1, [], .error (.exhausted e)⟩
      else ⟨1, [], .error (.nonRetryable e)⟩
  | remaining + 1 =>
    match provider attempt with
    | .ok r => ⟨1, [], .ok r⟩
    | .error e =>
      if retryable e then
        let rest := retryFrom provider (attempt + 1) (delay * 2) remaining
        ⟨rest.calls + 1, delay :: rest.sleeps, rest.result⟩
      else ⟨1, [], .error (.nonRetryable e)⟩

/-- `_call_claude_with_retry(system, messages, output_format, max_retries,
initial_delay)` from llm_service.py, with the provider abstracted as an
oracle over attempt indices.  `for attempt in range(max_retries + 1)` starts
at attempt 0 with `delay = initial_delay`. -/
def call_claude_with_retry (provider : Nat → Except APIErr Response)
    (max_retries : Nat) (initial_delay : ℚ) : CallResult :=
  retryFrom provider 0 initial_delay max_retries

/-- Default Claude model identifier (`DEFAULT_MODEL` in llm_service.py). -/
def DEFAULT_MODEL : String := "claude-sonnet-4-5"

/-- `SYSTEM_PROMPT` from llm_service.py, verbatim. -/
def SYSTEM_PROMPT : String :=
  "You are a data extraction assistant for an AI Model Catalogue database.\n\n" ++
  "Your task is to extract information about AI models from unstructured text sources like:\n" ++
  "- Research papers\n- Technical blog posts\n- News articles\n- Benchmark reports\n\n" ++
  "Important guidelines:\n" ++
  "- Only extract information explicitly stated in the text\n" ++
  "- Use null for missing fields rather than guessing\n" ++
  "- Normalize model names to lowercase with hyphens (gpt-4, not GPT4)\n" ++
  "- Infer release_date from context clues (\"in March 2023\" → \"2023-03-01\")\n" ++
  "- Keep descriptions concise (1-2 sentences)\n" ++
  "- Extract metadata as a JSON object when additional details are mentioned\n\n" ++
  "Now extract model information from the text provided by the user. " ++
  "If no valid model information can be extracted, return null for all fields.\n"

/-- One system-prompt block: its text and whether the ephemeral
`cache_control` annotation is attached (`use_cache`). -/
structure SystemBlock where
  text : String
  cache_control : Bool
deriving DecidableEq

/-- One chat message (role plus content). -/
structure ChatMessage where
  role : String
  content : String
deriving DecidableEq

/-- The `output_format` argument: the only schema this repository ever passes
is the `ExtractedModel` class. -/
inductive OutputFormat where
  | extractedModel
deriving DecidableEq

/-- Everything `extract_model_data` sends to the transport for one call. -/
structure ClaudeRequest where
  system : List SystemBlock
  messages : List ChatMessage
  output_format : Option OutputFormat
deriving DecidableEq

/-- The request `extract_model_data` builds for input `text` and cache flag
`use_cache`: one system block (cache-annotated iff `use_cache`), one user
message wrapping the literal text, schema-constrained to `ExtractedModel`. -/
def mkRequest (text : String) (use_cache : Bool) : ClaudeRequest :=
  { system := [⟨SYSTEM_PROMPT, use_cache⟩]
    messages := [⟨"user", "Extract model information from this text:\n\n" ++ text⟩]
    output_format := some .extractedModel }

/-- Forget every cache annotation of a request (what the provider sees apart
from the caching hint). -/
def eraseCache (req : ClaudeRequest) : ClaudeRequest :=
  { req with system := req.system.map fun b => { b with cache_control := false } }

/-- Python whitespace as recognised by `str.strip()` / `str.isspace()`. -/
def pyIsSpace (c : Char) : Bool :=
  (0x09 ≤ c.val && c.val ≤ 0x0d) || c.val == 0x20 ||
  (0x1c ≤ c.val && c.val ≤ 0x1f) || c.val == 0x85 || c.val == 0xa0 ||
  c.val == 0x1680 || (0x2000 ≤ c.val && c.val ≤ 0x200a) ||
  c.val == 0x2028 || c.val == 0x2029 || c.val == 0x202f || c.val == 0x205f ||
  c.val == 0x3000

/-- Python `str.strip()`: remove leading and trailing whitespace. -/
def pyStrip (s : String) : String :=
  String.mk (((s.data.dropWhile pyIsSpace).reverse.dropWhile pyIsSpace).reverse)

/-- `ExtractionResult` from llm_service.py: extracted data (or none),
total tokens used, and the Claude model identifier used. -/
structure ExtractionResult where
  data : Option ExtractedModel
  tokens_used : Nat
  model_used : String
deriving DecidableEq

/-- How `extract_model_data` fails: the local `ValueError` on empty input, or
a transport failure propagated unchanged from `_call_claude_with_retry`. -/
inductive ExtractError where
  | valueError (msg : String)
  | transport (f : CallFailure)

/-- Observable outcome of one `extract_model_data` invocation: the number of
provider calls made, the sleeps performed, the request sent to the transport
(none when the empty-input guard fires first), and the returned
`ExtractionResult` or raised error. -/
structure ExtractTrace where
  transportCalls : Nat
  sleeps : List ℚ
  request : Option ClaudeRequest
  result : Except ExtractError ExtractionResult

/-- `extract_model_data(text, use_cache)` from llm_service.py, for a service
whose configured model is `model`.  The provider oracle takes the request and
the attempt index.  Defaults of `_call_claude_with_retry` apply:
`max_retries = 3`, `initial_delay = 1.0`. -/
def extract_model_data (model : String)
    (provider : ClaudeRequest → Nat → Except APIErr Response)
    (text : String) (use_cache : Bool) : ExtractTrace :=
  if text = "" ∨ pyStrip text = "" then
    ⟨0, [], none, .error (.valueError "Input text for extraction cannot be empty")⟩
  else
    let req := mkRequest text use_cache
    let call := call_claude_with_retry (provider req) 3 1
    match call.result with
    | .error f => ⟨call.calls, call.sleeps, some req, .error (.transport f)⟩
    | .ok resp =>
      ⟨call.calls, call.sleeps, some req,
        .ok ⟨resp.parsed_output,
             resp.usage.input_tokens + resp.usage.output_tokens, model⟩⟩

/-- `fastapi.HTTPException`: status code plus detail message. -/
structure HTTPError where
  status_code : Nat
  detail : String
deriving DecidableEq

/-- Detail string of the 400 raised by `validate_extracted_data`. -/
def noDataFoundDetail : String :=
  "No model information could be extracted from the provided text. " ++
  "Please ensure the text contains information about an AI model."

/-- `validate_extracted_data(extracted)` from extraction_helpers.py: raises
HTTPException(400) when `extracted` is None, returns None otherwise. -/
def validate_extracted_data (extracted : Option ExtractedModel) :
    Except HTTPError Unit :=
  match extracted with
  | none => .error ⟨400, noDataFoundDetail⟩
  | some _ => .ok ()

/-- `ModelCreate` from models.py (via `ModelBase`): `name`, `display_name`
and `organization` are required strings with `max_length=255`; `license` is
optional with `max_length=255`; `release_date` and `description` optional;
`metadata_` optional with default None (its dict payload is irrelevant here
and carried as `Unit`). -/
structure ModelCreate where
  name : String
  display_name : String
  organization : String
  release_date : Option PyDate
  description : Option String
  license : Option String
  metadata_ : Option Unit
deriving DecidableEq

/-- Pydantic validation performed when `ModelCreate(...)` is constructed on a
non-table SQLModel: each keyword argument is checked against its field type.
`organization` has type `str`, so a None input is rejected; the
`max_length=255` constraints on `name`, `display_name`, `organization` and
`license` are enforced.  Returns the validated instance or the first
validation error message. -/
def pydanticModelCreate (name display_name : String)
    (organization : Option String) (release_date : Option PyDate)
    (description : Option String) (license : Option String) :
    Except String ModelCreate :=
  if 255 < name.length then
    .error "name: String should have at most 255 characters"
  else if 255 < display_name.length then
    .error "display_name: String should have at most 255 characters"
  else
    match organization with
    | none => .error "organization: Input should be a valid string"
    | some org =>
      if 255 < org.length then
        .error "organization: String should have at most 255 characters"
      else
        match license with
        | some l =>
          if 255 < l.length then
            .error "license: String should have at most 255 characters"
          else .ok ⟨name, display_name, org, release_date, description, license, none⟩
        | none => .ok ⟨name, display_name, org, release_date, description, none, none⟩

/-- `convert_extracted_to_create(extracted)` from extraction_helpers.py:
constructs `ModelCreate(name=extracted.model_name,
display_name=extracted.model_name, organization=extracted.organization,
release_date=extracted.release_date, description=extracted.description,
license=extracted.license)`.  The pydantic validation of `ModelCreate` runs
at construction, so the call raises a ValidationError for inputs its field
types reject. -/
def convert_extracted_to_create (extracted : ExtractedModel) :
    Except String ModelCreate :=
  pydanticModelCreate extracted.model_name extracted.model_name
    extracted.organization extracted.release_date
    (some extracted.description) extracted.license

/-- A persisted row of the `models` table, as far as the claims need it. -/
structure ModelRow where
  id : Nat
  name : String
  display_name : String
  organization : String
  release_date : Option PyDate
  description : Option String
  license : Option String
deriving DecidableEq

/-- The stored catalogue: the rows of the `models` table in insertion
order. -/
abbrev Catalogue : Type := List ModelRow

/-- `ModelRepository.get_by_name(name)`: first row whose `name` column equals
the argument, if any. -/
def get_by_name (db : Catalogue) (name : String) : Option ModelRow :=
  List.find? (fun m => m.name == name) db

/-- Detail string of the 409 raised by `create_model` on a duplicate name. -/
def duplicateDetail (name : String) (id : Nat) : String :=
  "Model with name " ++ name ++ " already exists with ID " ++ toString id

/-- `create_model(model_data, session)` from models.py: look the name up
first; on a hit raise HTTPException(409) and leave the store untouched;
otherwise insert the new row (the database assigns it the next id) and
return it.  The pair is (raised error or created row, catalogue after the
call). -/
def create_model (db : Catalogue) (nextId : Nat) (model_data : ModelCreate) :
    Except HTTPError ModelRow × Catalogue :=
  match get_by_name db model_data.name with
  | some existing => (.error ⟨409, duplicateDetail model_data.name existing.id⟩, db)
  | none =>
    let created : ModelRow :=
      ⟨nextId, model_data.name, model_data.display_name, model_data.organization,
       model_data.release_date, model_data.description, model_data.license⟩
    (.ok created, db ++ [created])

/-- `ExtractResponse` from schemas/extraction.py: created model plus
extraction metadata. -/
structure ExtractResponse where
  model : ModelRow
  tokens_used : Nat
  llm_model : String
deriving DecidableEq

/-- What the endpoint handler terminates with: an `HTTPException` it raised
itself, or an exception it never catches (the pydantic ValidationError that
`convert_extracted_to_create` can raise), which the framework turns into an
internal server error. -/
inductive EndpointError where
  | http (e : HTTPError)
  | unhandled (msg : String)
deriving DecidableEq

/-- Observable outcome of one call of the extraction endpoint: response or
error, catalogue after the call, and number of provider invocations. -/
structure EndpointOutcome where
  response : Except EndpointError ExtractResponse
  db : Catalogue
  transportCalls : Nat

/-- `extract_and_create_model(request, llm_service, session)` from
extraction.py.  Step 1 calls `extract_model_data(text, use_cache=True)`,
mapping ValueError to 400 with the error text and any other exception to 500;
step 2 is `validate_extracted_data` (its 400 propagates, so the None branch
below raises exactly its error); step 3 `convert_extracted_to_create` (an
uncaught ValidationError escapes the handler); step 4 delegates to
`create_model` whose HTTPException propagates; step 5 builds the response
from the created row and the outcome metadata. -/
def extract_and_create_model (model : String)
    (provider : ClaudeRequest → Nat → Except APIErr Response)
    (db : Catalogue) (nextId : Nat) (text : String) : EndpointOutcome :=
  let tr := extract_model_data model provider text true
  match tr.result with
  | .error (.valueError msg) =>
    ⟨.error (.http ⟨400, msg⟩), db, tr.transportCalls⟩
  | .error (.transport f) =>
    let e := match f with
      | .exhausted e => e
      | .nonRetryable e => e
    ⟨.error (.http ⟨500,
        "Failed to extract model information from text: " ++ e.message⟩),
     db, tr.transportCalls⟩
  | .ok res =>
    match res.data with
    | none =>
      ⟨.error (.http ⟨400, noDataFoundDetail⟩), db, tr.transportCalls⟩
    | some extracted =>
      match convert_extracted_to_create extracted with
      | .error msg => ⟨.error (.unhandled msg), db, tr.transportCalls⟩
      | .ok model_create =>
        match create_model db nextId model_create with
        | (.error e, db2) => ⟨.error (.http e), db2, tr.transportCalls⟩
        | (.ok created, db2) =>
          ⟨.ok ⟨created, res.tokens_used, res.model_used⟩, db2, tr.transportCalls⟩

/-- The `min_length=10` constraint of `ExtractRequest.text` from
schemas/extraction.py, checked by FastAPI before the handler runs (pydantic
counts every character, whitespace included). -/
def extractRequestValid (text : String) : Bool :=
  10 ≤ text.length

/-- POST /api/v1/extract as seen from outside: request validation first
(pydantic rejects too-short text with a 422 before the handler runs), then
the handler. -/
def post_extract (model : String)
    (provider : ClaudeRequest → Nat → Except APIErr Response)
    (db : Catalogue) (nextId : Nat) (text : String) : EndpointOutcome :=
  if extractRequestValid text then
    extract_and_create_model model provider db nextId text
  else
    ⟨.error (.http ⟨422, "String should have at least 10 characters"⟩), db, 0⟩

/-! ### Helper lemmas about the retry loop -/

/-- Geometric delay sequence: mapping over `range (n+1)` peels off the first
delay and doubles the base for the remainder. -/
theorem geom_delays_succ (d : ℚ) (n : Nat) :
    (List.range (n + 1)).map (fun i => d * 2 ^ i)
      = d :: (List.range n).map (fun i => (d * 2) * 2 ^ i) := by
  rw [List.range_succ_eq_map, List.map_cons, List.map_map]
  refine congrArg₂ _ (by ring) (List.map_congr_left fun i _ => ?_)
  simp only [Function.comp_apply, pow_succ]
  ring

/-- When every provider attempt fails with a retryable error, the loop from
`attempt` with `remaining` attempts left performs `remaining + 1` calls,
sleeps the geometric delays, and ends re-raising the final attempt's error
tagged as exhausted. -/
theorem retryFrom_all_transient (provider : Nat → Except APIErr Response)
    (hfail : ∀ j, ∃ e, provider j = .error e ∧ retryable e = true) :
    ∀ (remaining attempt : Nat) (delay : ℚ),
      (retryFrom provider attempt delay remaining).calls = remaining + 1 ∧
      (retryFrom provider attempt delay remaining).sleeps
        = (List.range remaining).map (fun i => delay * 2 ^ i) ∧
      ∃ e, provider (attempt + remaining) = .error e ∧
        (retryFrom provider attempt delay remaining).result
          = .error (.exhausted e) := by
  intro remaining
  induction remaining with
  | zero =>
    intro attempt delay
    obtain ⟨e, he, ht⟩ := hfail attempt
    refine ⟨?_, ?_, e, ?_, ?_⟩ <;> simp [retryFrom, he, ht]
  | succ n ih =>
    intro attempt delay
    obtain ⟨e, he, ht⟩ := hfail attempt
    obtain ⟨ihc, ihs, e2, he2, ihr⟩ := ih (attempt + 1) (delay * 2)
    refine ⟨?_, ?_, e2, ?_, ?_⟩
    · simp [retryFrom, he, ht, ihc]
    · simp [retryFrom, he, ht, ihs, geom_delays_succ]
    · simpa [Nat.add_assoc, Nat.add_comm 1 n] using he2
    · simp [retryFrom, he, ht, ihr]

/-- Whatever the provider does, the i-th sleep recorded by the loop (when it
exists) equals the starting delay doubled i times. -/
theorem retryFrom_sleeps_getElem (provider : Nat → Except APIErr Response) :
    ∀ (remaining attempt : Nat) (delay : ℚ) (i : Nat) (x : ℚ),
      (retryFrom provider attempt delay remaining).sleeps[i]? = some x →
      x = delay * 2 ^ i := by
  intro remaining
  induction remaining with
  | zero =>
    intro attempt delay i x h
    cases he : provider attempt with
    | ok r => simp [retryFrom, he] at h
    | error e =>
      by_cases ht : retryable e = true <;> simp [retryFrom, he, ht] at h
  | succ n ih =>
    intro attempt delay i x h
    cases he : provider attempt with
    | ok r => simp [retryFrom, he] at h
    | error e =>
      by_cases ht : retryable e = true
      · simp only [retryFrom, he, ht, if_true] at h
        cases i with
        | zero =>
          simp at h
          simp [← h]
        | succ j =>
          simp only [List.getElem?_cons_succ] at h
          have := ih (attempt + 1) (delay * 2) j x h
          rw [this, pow_succ]
          ring
      · simp [retryFrom, he, ht] at h

/-- A provider success on the attempt about to run ends the loop at once. -/
theorem retryFrom_first_success (provider : Nat → Except APIErr Response)
    (attempt : Nat) (delay : ℚ) (remaining : Nat) (r : Response)
    (h : provider attempt = .ok r) :
    retryFrom provider attempt delay remaining = ⟨1, [], .ok r⟩ := by
  cases remaining <;> simp [retryFrom, h]

/-- A string whose characters are all Python whitespace strips to empty, and
conversely. -/
theorem pyStrip_eq_empty_iff (s : String) :
    pyStrip s = "" ↔ ∀ c ∈ s.data, pyIsSpace c = true := by
  unfold pyStrip
  constructor
  · intro h c hc
    by_contra hns
    have h1 : s.data.dropWhile pyIsSpace ≠ [] := by
      intro hnil
      exact hns (List.dropWhile_eq_nil_iff.mp hnil c hc)
    have h2 : (s.data.dropWhile pyIsSpace).reverse.dropWhile pyIsSpace = [] := by
      have := congrArg String.data h
      simpa using this
    have h3 := List.dropWhile_eq_nil_iff.mp h2
    have h4 : ∀ c ∈ s.data.dropWhile pyIsSpace, pyIsSpace c = true := by
      intro c hc
      exact h3 c (List.mem_reverse.mpr hc)
    obtain ⟨c0, hc0⟩ := List.exists_mem_of_ne_nil _ h1
    have hhead := List.head?_dropWhile_not pyIsSpace s.data
    cases hh : (s.data.dropWhile pyIsSpace).head? with
    | none => exact h1 (List.head?_eq_none_iff.mp hh)
    | some c1 =>
      have : pyIsSpace c1 ≠ true := by
        have := List.head?_dropWhile_not pyIsSpace s.data
        rw [hh] at this
        simpa using this
      exact this (h4 c1 (List.mem_of_mem_head? hh))
  · intro h
    have h1 : s.data.dropWhile pyIsSpace = [] :=
      List.dropWhile_eq_nil_iff.mpr h
    simp [h1]

/-- The retry loop always performs at least one provider call. -/
theorem retryFrom_calls_pos (provider : Nat → Except APIErr Response) :
    ∀ (remaining attempt : Nat) (delay : ℚ),
      1 ≤ (retryFrom provider attempt delay remaining).calls := by
  intro remaining attempt delay
  cases remaining with
  | zero =>
    cases h : provider attempt with
    | ok r => simp [retryFrom, h]
    | error e => by_cases ht : retryable e = true <;> simp [retryFrom, h, ht]
  | succ n =>
    cases h : provider attempt with
    | ok r => simp [retryFrom, h]
    | error e =>
      by_cases ht : retryable e = true <;> simp [retryFrom, h, ht]

/-- When the empty-input guard does not fire, `extract_model_data` is the
transport call on the built request followed by outcome assembly. -/
theorem extract_model_data_guard_pass (model : String)
    (provider : ClaudeRequest → Nat → Except APIErr Response)
    (text : String) (use_cache : Bool) (hg : pyStrip text ≠ "") :
    extract_model_data model provider text use_cache =
      ⟨(call_claude_with_retry (provider (mkRequest text use_cache)) 3 1).calls,
       (call_claude_with_retry (provider (mkRequest text use_cache)) 3 1).sleeps,
       some (mkRequest text use_cache),
       match (call_claude_with_retry (provider (mkRequest text use_cache)) 3 1).result with
       | .error f => .error (.transport f)
       | .ok resp =>
         .ok ⟨resp.parsed_output,
              resp.usage.input_tokens + resp.usage.output_tokens, model⟩⟩ := by
  have hcond : ¬(text = "" ∨ pyStrip text = "") := by
    rintro (rfl | h2)
    · exact hg rfl
    · exact hg h2
  cases h : (call_claude_with_retry (provider (mkRequest text use_cache)) 3 1).result <;>
    simp [extract_model_data, hcond, h]

/-- When the input strips to empty, the guard fires: ValueError, no request,
no provider calls. -/
theorem extract_model_data_guard_fire (model : String)
    (provider : ClaudeRequest → Nat → Except APIErr Response)
    (text : String) (use_cache : Bool) (hg : pyStrip text = "") :
    extract_model_data model provider text use_cache =
      ⟨0, [], none,
       .error (.valueError "Input text for extraction cannot be empty")⟩ := by
  simp [extract_model_data, hg]

/-- A provider success on the first attempt yields the assembled outcome with
one call and no sleeps. -/
theorem extract_model_data_first_success (model : String)
    (provider : ClaudeRequest → Nat → Except APIErr Response)
    (text : String) (use_cache : Bool) (resp : Response)
    (hg : pyStrip text ≠ "")
    (hp : provider (mkRequest text use_cache) 0 = .ok resp) :
    extract_model_data model provider text use_cache =
      ⟨1, [], some (mkRequest text use_cache),
       .ok ⟨resp.parsed_output,
            resp.usage.input_tokens + resp.usage.output_tokens, model⟩⟩ := by
  rw [extract_model_data_guard_pass model provider text use_cache hg]
  have h := retryFrom_first_success (provider (mkRequest text use_cache)) 0 1 3 resp hp
  simp [call_claude_with_retry, h]

/-- Replace the cache token counters of a response, leaving the payload and
the input and output counters alone. -/
def withCacheTokens (resp : Response) (cc cr : Nat) : Response :=
  { resp with usage := { resp.usage with
      cache_creation_input_tokens := cc, cache_read_input_tokens := cr } }

/-! ### Claim theorems -/

/-- C1: for every `maxRetries` value N ≥ 0, if every transport attempt fails
with a transient failure (rate limit, upstream 5xx, or connection error),
then `_call_claude_with_retry` invokes the provider exactly N + 1 times, and
after the last attempt the last transient failure is re-raised to the
caller, tagged as exhausted-retries. -/
theorem retry_bound (provider : Nat → Except APIErr Response)
    (N : Nat) (d : ℚ)
    (hfail : ∀ j, ∃ e, provider j = .error e ∧ retryable e = true) :
    (call_claude_with_retry provider N d).calls = N + 1 ∧
    ∃ e, provider N = .error e ∧
      (call_claude_with_retry provider N d).result = .error (.exhausted e) := by
  obtain ⟨hc, _, e, he, hr⟩ := retryFrom_all_transient provider hfail N 0 d
  exact ⟨hc, e, by simpa using he, hr⟩

/-- Witness for C1 at N = 2, d = 1, with a provider failing every attempt
with a distinct rate-limit error: three calls, and the attempt-2 error is
the one re-raised as exhausted. -/
theorem retry_bound_witness :
    (∀ j : Nat, ∃ e,
      (fun j : Nat => (Except.error (APIErr.rateLimitError (toString j)) :
        Except APIErr Response)) j = .error e ∧ retryable e = true) ∧
    ((call_claude_with_retry
        (fun j : Nat => (Except.error (APIErr.rateLimitError (toString j)) :
          Except APIErr Response)) 2 1).calls = 2 + 1 ∧
      ∃ e, (fun j : Nat => (Except.error (APIErr.rateLimitError (toString j)) :
          Except APIErr Response)) 2 = .error e ∧
        (call_claude_with_retry
          (fun j : Nat => (Except.error (APIErr.rateLimitError (toString j)) :
            Except APIErr Response)) 2 1).result
            = .error (.exhausted e)) :=
  ⟨fun j => ⟨.rateLimitError (toString j), rfl, rfl⟩,
   retry_bound _ 2 1 (fun j => ⟨.rateLimitError (toString j), rfl, rfl⟩)⟩

/-- C2: for every initial delay d > 0 and every retry index k ≥ 1 (overall
attempt number k + 1 in 2..N+1), when every attempt fails transiently the
delay slept between the failing attempt and the next one equals
d * 2^(k-1): the successive delays are d, 2d, 4d, ....  Moreover, whatever
the provider does, any recorded sleep at position k is the starting delay
doubled k - 1 times. -/
theorem exponential_backoff (provider : Nat → Except APIErr Response)
    (N : Nat) (d : ℚ) (k : Nat)
    (hd : 0 < d) (hk : 1 ≤ k) (hkN : k ≤ N)
    (hfail : ∀ j, ∃ e, provider j = .error e ∧ retryable e = true) :
    (call_claude_with_retry provider N d).sleeps[k - 1]? = some (d * 2 ^ (k - 1)) ∧
    ∀ (provider2 : Nat → Except APIErr Response) (x : ℚ),
      (call_claude_with_retry provider2 N d).sleeps[k - 1]? = some x →
      x = d * 2 ^ (k - 1) := by
  constructor
  · obtain ⟨_, hs, _⟩ := retryFrom_all_transient provider hfail N 0 d
    unfold call_claude_with_retry
    rw [hs, List.getElem?_map, List.getElem?_range (by omega)]
    rfl
  · intro provider2 x hx
    exact retryFrom_sleeps_getElem provider2 N 0 d (k - 1) x hx

/-- Witness for C2 at N = 3, d = 1, k = 2 with an always-rate-limited
provider: the second sleep is 1 * 2^1 = 2 seconds. -/
theorem exponential_backoff_witness :
    ((0 : ℚ) < 1 ∧ 1 ≤ 2 ∧ 2 ≤ 3 ∧
      (∀ j : Nat, ∃ e,
        (fun _ : Nat => (Except.error (APIErr.rateLimitError "429") :
          Except APIErr Response)) j = .error e ∧ retryable e = true)) ∧
    ((call_claude_with_retry
        (fun _ : Nat => (Except.error (APIErr.rateLimitError "429") :
          Except APIErr Response)) 3 1).sleeps[2 - 1]?
        = some ((1 : ℚ) * 2 ^ (2 - 1)) ∧
      ∀ (provider2 : Nat → Except APIErr Response) (x : ℚ),
        (call_claude_with_retry provider2 3 1).sleeps[2 - 1]? = some x →
        x = (1 : ℚ) * 2 ^ (2 - 1)) :=
  ⟨⟨one_pos, by omega, by omega, fun _ => ⟨.rateLimitError "429", rfl, rfl⟩⟩,
   exponential_backoff _ 3 1 2 one_pos (by omega) (by omega)
     (fun _ => ⟨.rateLimitError "429", rfl, rfl⟩)⟩

/-- C3: if the first transport attempt fails with a non-transient provider
failure, `_call_claude_with_retry` makes exactly one provider call, sleeps
zero times, and propagates that failure immediately (via the non-retryable
raise site). -/
theorem no_retry_on_non_transient (provider : Nat → Except APIErr Response)
    (N : Nat) (d : ℚ) (e : APIErr)
    (h0 : provider 0 = .error e) (hnr : retryable e = false) :
    call_claude_with_retry provider N d = ⟨1, [], .error (.nonRetryable e)⟩ := by
  cases N <;> simp [call_claude_with_retry, retryFrom, h0, hnr]

/-- Witness for C3: a provider whose first attempt fails with a permanent
API rejection makes one call, no sleeps, and the failure propagates. -/
theorem no_retry_on_non_transient_witness :
    ((fun _ : Nat => (Except.error (APIErr.otherAPIError "invalid request") :
        Except APIErr Response)) 0 = .error (.otherAPIError "invalid request") ∧
      retryable (.otherAPIError "invalid request") = false) ∧
    call_claude_with_retry
        (fun _ : Nat => (Except.error (APIErr.otherAPIError "invalid request") :
          Except APIErr Response)) 3 1
      = ⟨1, [], .error (.nonRetryable (.otherAPIError "invalid request"))⟩ :=
  ⟨⟨rfl, rfl⟩, no_retry_on_non_transient _ 3 1 _ rfl rfl⟩

/-- C4: for every string that is empty or consists only of whitespace,
`extract_model_data` fails with a ValueError and performs zero transport
calls; for every string that is non-empty after trimming, the guard does not
fire (a request is built, the transport is called at least once, and the
result is never the empty-input ValueError). -/
theorem empty_input_rejection (model : String)
    (provider : ClaudeRequest → Nat → Except APIErr Response)
    (text : String) (use_cache : Bool) :
    ((∀ c ∈ text.data, pyIsSpace c = true) →
      (extract_model_data model provider text use_cache).result
        = .error (.valueError "Input text for extraction cannot be empty") ∧
      (extract_model_data model provider text use_cache).transportCalls = 0) ∧
    (pyStrip text ≠ "" →
      (extract_model_data model provider text use_cache).request
        = some (mkRequest text use_cache) ∧
      1 ≤ (extract_model_data model provider text use_cache).transportCalls ∧
      ∀ msg, (extract_model_data model provider text use_cache).result
        ≠ .error (.valueError msg)) := by
  constructor
  · intro hws
    have hg : pyStrip text = "" := (pyStrip_eq_empty_iff text).mpr hws
    rw [extract_model_data_guard_fire model provider text use_cache hg]
    exact ⟨rfl, rfl⟩
  · intro hg
    rw [extract_model_data_guard_pass model provider text use_cache hg]
    refine ⟨rfl, retryFrom_calls_pos _ 3 0 1, ?_⟩
    intro msg
    cases h : (call_claude_with_retry (provider (mkRequest text use_cache)) 3 1).result <;>
      simp [h]

/-- Witness for C4: a three-space input raises the ValueError with zero
calls; a non-blank input passes the guard. -/
theorem empty_input_rejection_witness :
    ((∀ c ∈ ("   " : String).data, pyIsSpace c = true) ∧
      ((extract_model_data DEFAULT_MODEL
          (fun _ _ => .ok ⟨none, ⟨0, 0, 0, 0⟩⟩) "   " true).result
        = .error (.valueError "Input text for extraction cannot be empty") ∧
       (extract_model_data DEFAULT_MODEL
          (fun _ _ => .ok ⟨none, ⟨0, 0, 0, 0⟩⟩) "   " true).transportCalls = 0)) ∧
    (pyStrip "GPT-4 was released by OpenAI" ≠ "" ∧
      ((extract_model_data DEFAULT_MODEL
          (fun _ _ => .ok ⟨none, ⟨0, 0, 0, 0⟩⟩) "GPT-4 was released by OpenAI" true).request
        = some (mkRequest "GPT-4 was released by OpenAI" true) ∧
       1 ≤ (extract_model_data DEFAULT_MODEL
          (fun _ _ => .ok ⟨none, ⟨0, 0, 0, 0⟩⟩) "GPT-4 was released by OpenAI" true).transportCalls ∧
       ∀ msg, (extract_model_data DEFAULT_MODEL
          (fun _ _ => .ok ⟨none, ⟨0, 0, 0, 0⟩⟩) "GPT-4 was released by OpenAI" true).result
        ≠ .error (.valueError msg))) :=
  ⟨⟨by decide,
    (empty_input_rejection DEFAULT_MODEL _ "   " true).1 (by decide)⟩,
   ⟨by decide,
    (empty_input_rejection DEFAULT_MODEL _ "GPT-4 was released by OpenAI" true).2 (by decide)⟩⟩

/-- C5: for every successful transport response with input_tokens = i and
output_tokens = o, the returned `tokens_used` equals exactly i + o, and the
cache-related counters do not contribute: overwriting them changes
nothing. -/
theorem token_accounting (model text : String) (resp : Response) (cc cr : Nat)
    (hg : pyStrip text ≠ "") :
    (∃ r, (extract_model_data model (fun _ _ => .ok resp) text true).result
        = .ok r ∧
      r.tokens_used = resp.usage.input_tokens + resp.usage.output_tokens) ∧
    (∃ r2, (extract_model_data model
          (fun _ _ => .ok (withCacheTokens resp cc cr)) text true).result
        = .ok r2 ∧
      r2.tokens_used = resp.usage.input_tokens + resp.usage.output_tokens) := by
  constructor
  · rw [extract_model_data_first_success model _ text true resp hg rfl]
    exact ⟨_, rfl, rfl⟩
  · rw [extract_model_data_first_success model _ text true
      (withCacheTokens resp cc cr) hg rfl]
    exact ⟨_, rfl, rfl⟩

/-- Witness for C5: input_tokens = 500 and output_tokens = 150 yield
tokens_used = 650, also with the cache counters overwritten to 777/888. -/
theorem token_accounting_witness :
    pyStrip "GPT-4 was released by OpenAI in March 2023" ≠ "" ∧
    ((∃ r, (extract_model_data DEFAULT_MODEL
          (fun _ _ => .ok ⟨none, ⟨500, 150, 0, 0⟩⟩)
          "GPT-4 was released by OpenAI in March 2023" true).result = .ok r ∧
        r.tokens_used = (⟨none, ⟨500, 150, 0, 0⟩⟩ : Response).usage.input_tokens
          + (⟨none, ⟨500, 150, 0, 0⟩⟩ : Response).usage.output_tokens) ∧
     (∃ r2, (extract_model_data DEFAULT_MODEL
          (fun _ _ => .ok (withCacheTokens ⟨none, ⟨500, 150, 0, 0⟩⟩ 777 888))
          "GPT-4 was released by OpenAI in March 2023" true).result = .ok r2 ∧
        r2.tokens_used = (⟨none, ⟨500, 150, 0, 0⟩⟩ : Response).usage.input_tokens
          + (⟨none, ⟨500, 150, 0, 0⟩⟩ : Response).usage.output_tokens)) :=
  ⟨by decide,
   token_accounting DEFAULT_MODEL "GPT-4 was released by OpenAI in March 2023"
     ⟨none, ⟨500, 150, 0, 0⟩⟩ 777 888 (by decide)⟩

/-- C6: a successful transport response with absent parsed payload yields an
outcome with absent data and no error, and `validate_extracted_data` raises
the 400 NoDataFound error exactly when its argument is absent, returning
normally on every present value. -/
theorem absent_data_passthrough (model text : String) (u : Usage)
    (hg : pyStrip text ≠ "") :
    (∃ r, (extract_model_data model (fun _ _ => .ok ⟨none, u⟩) text true).result
        = .ok r ∧ r.data = none) ∧
    validate_extracted_data none = .error ⟨400, noDataFoundDetail⟩ ∧
    (∀ x : Option ExtractedModel,
      (∃ e, validate_extracted_data x = .error e ∧ e.status_code = 400) ↔ x = none) ∧
    (∀ d, validate_extracted_data (some d) = .ok ()) := by
  refine ⟨?_, rfl, ?_, fun d => rfl⟩
  · rw [extract_model_data_first_success model _ text true ⟨none, u⟩ hg rfl]
    exact ⟨_, rfl, rfl⟩
  · intro x
    cases x with
    | none => simp [validate_extracted_data]
    | some d => simp [validate_extracted_data]

/-- Witness for C6: a no-extractable-model response on a non-blank input. -/
theorem absent_data_passthrough_witness :
    pyStrip "This article is about cooking recipes" ≠ "" ∧
    ((∃ r, (extract_model_data DEFAULT_MODEL
          (fun _ _ => .ok ⟨none, ⟨120, 8, 0, 0⟩⟩)
          "This article is about cooking recipes" true).result = .ok r ∧
        r.data = none) ∧
     validate_extracted_data none = .error ⟨400, noDataFoundDetail⟩ ∧
     (∀ x : Option ExtractedModel,
       (∃ e, validate_extracted_data x = .error e ∧ e.status_code = 400) ↔ x = none) ∧
     (∀ d, validate_extracted_data (some d) = .ok ())) :=
  ⟨by decide,
   absent_data_passthrough DEFAULT_MODEL
     "This article is about cooking recipes" ⟨120, 8, 0, 0⟩ (by decide)⟩

/-- C7 counterexample: on an extracted value whose organization is absent,
`convert_extracted_to_create` does not succeed — the `ModelCreate`
construction rejects None for the required `organization: str` field — so the
conversion is not total over values with organization absent, contrary to the
claim. -/
theorem mapping_totality_counterexample :
    convert_extracted_to_create
        ⟨"gpt-4", none, none, "A large multimodal model", none⟩
      = .error "organization: Input should be a valid string" := rfl

/-- C7 (amended): for every ExtractedModelData whose organization is present
and whose string fields fit the schema's 255-character bounds,
`convert_extracted_to_create` succeeds and produces a create request with
name = model_name, display_name = model_name, and organization,
release_date, description and license copied verbatim. -/
theorem mapping_fidelity (e : ExtractedModel) (org : String)
    (horg : e.organization = some org)
    (hname : e.model_name.length ≤ 255)
    (horgLen : org.length ≤ 255)
    (hlic : ∀ l ∈ e.license, l.length ≤ 255) :
    convert_extracted_to_create e
      = .ok ⟨e.model_name, e.model_name, org, e.release_date,
             some e.description, e.license, none⟩ := by
  have h1 : ¬ 255 < e.model_name.length := by omega
  have h2 : ¬ 255 < org.length := by omega
  cases hl : e.license with
  | none =>
    simp [convert_extracted_to_create, pydanticModelCreate, horg, hl, h1, h2]
  | some l =>
    have h3 : ¬ 255 < l.length := by
      have := hlic l (by simp [hl])
      omega
    simp [convert_extracted_to_create, pydanticModelCreate, horg, hl, h1, h2, h3]

/-- Witness for C7 (amended) at the concrete example of the claim:
model_name gpt-4, organization OpenAI, release date 2023-03-14, description
A large multimodal model, license Proprietary. -/
theorem mapping_fidelity_witness :
    ((⟨"gpt-4", some "OpenAI", some ⟨2023, 3, 14⟩, "A large multimodal model",
        some "Proprietary"⟩ : ExtractedModel).organization = some "OpenAI" ∧
      (⟨"gpt-4", some "OpenAI", some ⟨2023, 3, 14⟩, "A large multimodal model",
        some "Proprietary"⟩ : ExtractedModel).model_name.length ≤ 255 ∧
      ("OpenAI" : String).length ≤ 255 ∧
      (∀ l ∈ (⟨"gpt-4", some "OpenAI", some ⟨2023, 3, 14⟩,
          "A large multimodal model", some "Proprietary"⟩ :
            ExtractedModel).license, l.length ≤ 255)) ∧
    convert_extracted_to_create
        ⟨"gpt-4", some "OpenAI", some ⟨2023, 3, 14⟩, "A large multimodal model",
          some "Proprietary"⟩
      = .ok ⟨"gpt-4", "gpt-4", "OpenAI", some ⟨2023, 3, 14⟩,
             some "A large multimodal model", some "Proprietary", none⟩ :=
  ⟨⟨rfl, by decide, by decide, fun l hl => by
      simp only [Option.mem_def, Option.some.injEq] at hl
      subst hl
      decide⟩,
   mapping_fidelity _ "OpenAI" rfl (by decide) (by decide)
     (fun l hl => by
       simp only [Option.mem_def, Option.some.injEq] at hl
       subst hl
       decide)⟩

/-- C8: two runs of `extract_model_data` that differ only in the cache flag
build requests with the same user message, the same system-prompt text and
the same output schema, differing only in the cache annotation; and for any
provider that ignores the cache annotation the two runs return identical
results, so the flag never alters output semantics. -/
theorem cache_flag_orthogonality (model text : String)
    (provider : ClaudeRequest → Nat → Except APIErr Response)
    (hprov : ∀ r1 r2 : ClaudeRequest,
      eraseCache r1 = eraseCache r2 → provider r1 = provider r2) :
    ((mkRequest text true).messages = (mkRequest text false).messages ∧
     (mkRequest text true).system.map SystemBlock.text
       = (mkRequest text false).system.map SystemBlock.text ∧
     (mkRequest text true).output_format = (mkRequest text false).output_format ∧
     eraseCache (mkRequest text true) = eraseCache (mkRequest text false)) ∧
    ((extract_model_data model provider text true).result
       = (extract_model_data model provider text false).result ∧
     (extract_model_data model provider text true).transportCalls
       = (extract_model_data model provider text false).transportCalls) := by
  have hereq : eraseCache (mkRequest text true) = eraseCache (mkRequest text false) := by
    simp [eraseCache, mkRequest]
  have hpeq : provider (mkRequest text true) = provider (mkRequest text false) :=
    hprov _ _ hereq
  refine ⟨⟨rfl, rfl, rfl, hereq⟩, ?_⟩
  by_cases hg : pyStrip text = ""
  · rw [extract_model_data_guard_fire model provider text true hg,
        extract_model_data_guard_fire model provider text false hg]
    exact ⟨rfl, rfl⟩
  · rw [extract_model_data_guard_pass model provider text true hg,
        extract_model_data_guard_pass model provider text false hg, hpeq]
    exact ⟨rfl, rfl⟩

/-- Witness for C8 with a cache-blind constant provider. -/
theorem cache_flag_orthogonality_witness :
    (∀ r1 r2 : ClaudeRequest, eraseCache r1 = eraseCache r2 →
      (fun _ : ClaudeRequest => fun _ : Nat =>
        (Except.ok ⟨none, ⟨9, 4, 0, 0⟩⟩ : Except APIErr Response)) r1
        = (fun _ : ClaudeRequest => fun _ : Nat =>
            (Except.ok ⟨none, ⟨9, 4, 0, 0⟩⟩ : Except APIErr Response)) r2) ∧
    (((mkRequest "GPT-4 by OpenAI" true).messages
        = (mkRequest "GPT-4 by OpenAI" false).messages ∧
      (mkRequest "GPT-4 by OpenAI" true).system.map SystemBlock.text
        = (mkRequest "GPT-4 by OpenAI" false).system.map SystemBlock.text ∧
      (mkRequest "GPT-4 by OpenAI" true).output_format
        = (mkRequest "GPT-4 by OpenAI" false).output_format ∧
      eraseCache (mkRequest "GPT-4 by OpenAI" true)
        = eraseCache (mkRequest "GPT-4 by OpenAI" false)) ∧
     ((extract_model_data DEFAULT_MODEL
          (fun _ _ => .ok ⟨none, ⟨9, 4, 0, 0⟩⟩) "GPT-4 by OpenAI" true).result
        = (extract_model_data DEFAULT_MODEL
            (fun _ _ => .ok ⟨none, ⟨9, 4, 0, 0⟩⟩) "GPT-4 by OpenAI" false).result ∧
      (extract_model_data DEFAULT_MODEL
          (fun _ _ => .ok ⟨none, ⟨9, 4, 0, 0⟩⟩) "GPT-4 by OpenAI" true).transportCalls
        = (extract_model_data DEFAULT_MODEL
            (fun _ _ => .ok ⟨none, ⟨9, 4, 0, 0⟩⟩) "GPT-4 by OpenAI" false).transportCalls)) :=
  ⟨fun _ _ _ => rfl,
   cache_flag_orthogonality DEFAULT_MODEL "GPT-4 by OpenAI"
     (fun _ _ => .ok ⟨none, ⟨9, 4, 0, 0⟩⟩) (fun _ _ _ => rfl)⟩

/-- C9: a create request whose name equals the name of a model already in
the catalogue makes `create_model` fail with a 409 conflict, inserting no row
and leaving the catalogue unchanged; and the extraction endpoint propagates
that conflict (as an HTTPException with status 409) with the catalogue still
unchanged. -/
theorem duplicate_name_conflict :
    (∀ (db : Catalogue) (nextId : Nat) (mc : ModelCreate) (m : ModelRow),
      get_by_name db mc.name = some m →
      create_model db nextId mc
        = (.error ⟨409, duplicateDetail mc.name m.id⟩, db)) ∧
    (∀ (model text : String)
       (provider : ClaudeRequest → Nat → Except APIErr Response)
       (db : Catalogue) (nextId : Nat) (resp : Response) (d : ExtractedModel)
       (mc : ModelCreate) (m : ModelRow),
      pyStrip text ≠ "" →
      provider (mkRequest text true) 0 = .ok resp →
      resp.parsed_output = some d →
      convert_extracted_to_create d = .ok mc →
      get_by_name db mc.name = some m →
      (extract_and_create_model model provider db nextId text).response
        = .error (.http ⟨409, duplicateDetail mc.name m.id⟩) ∧
      (extract_and_create_model model provider db nextId text).db = db) := by
  have part1 : ∀ (db : Catalogue) (nextId : Nat) (mc : ModelCreate) (m : ModelRow),
      get_by_name db mc.name = some m →
      create_model db nextId mc
        = (.error ⟨409, duplicateDetail mc.name m.id⟩, db) := by
    intro db nextId mc m h
    simp [create_model, h]
  refine ⟨part1, ?_⟩
  intro model text provider db nextId resp d mc m hg hp hparsed hconv hdup
  have hx := extract_model_data_first_success model provider text true resp hg hp
  constructor <;>
    simp [extract_and_create_model, hx, hparsed, hconv,
      part1 db nextId mc m hdup]

/-- Witness for C9: the catalogue already holds a gpt-4 row; extraction of a
gpt-4 mention converts cleanly, creation conflicts with 409, and the
catalogue is unchanged. -/
theorem duplicate_name_conflict_witness :
    (pyStrip "GPT-4 was released by OpenAI" ≠ "" ∧
      (fun _ : ClaudeRequest => fun _ : Nat =>
        (Except.ok ⟨some ⟨"gpt-4", some "OpenAI", none,
            "A large multimodal model", none⟩, ⟨500, 150, 0, 0⟩⟩ :
          Except APIErr Response)) (mkRequest "GPT-4 was released by OpenAI" true) 0
        = .ok ⟨some ⟨"gpt-4", some "OpenAI", none,
            "A large multimodal model", none⟩, ⟨500, 150, 0, 0⟩⟩ ∧
      (⟨some ⟨"gpt-4", some "OpenAI", none, "A large multimodal model", none⟩,
          ⟨500, 150, 0, 0⟩⟩ : Response).parsed_output
        = some ⟨"gpt-4", some "OpenAI", none, "A large multimodal model", none⟩ ∧
      convert_extracted_to_create
          ⟨"gpt-4", some "OpenAI", none, "A large multimodal model", none⟩
        = .ok ⟨"gpt-4", "gpt-4", "OpenAI", none,
               some "A large multimodal model", none, none⟩ ∧
      get_by_name [⟨7, "gpt-4", "GPT-4", "OpenAI", none, none, none⟩]
          (⟨"gpt-4", "gpt-4", "OpenAI", none,
            some "A large multimodal model", none, none⟩ : ModelCreate).name
        = some ⟨7, "gpt-4", "GPT-4", "OpenAI", none, none, none⟩) ∧
    ((extract_and_create_model DEFAULT_MODEL
        (fun _ _ => .ok ⟨some ⟨"gpt-4", some "OpenAI", none,
            "A large multimodal model", none⟩, ⟨500, 150, 0, 0⟩⟩)
        [⟨7, "gpt-4", "GPT-4", "OpenAI", none, none, none⟩] 8
        "GPT-4 was released by OpenAI").response
        = .error (.http ⟨409,
            duplicateDetail (⟨"gpt-4", "gpt-4", "OpenAI", none,
              some "A large multimodal model", none, none⟩ : ModelCreate).name
              (⟨7, "gpt-4", "GPT-4", "OpenAI", none, none, none⟩ : ModelRow).id⟩) ∧
      (extract_and_create_model DEFAULT_MODEL
        (fun _ _ => .ok ⟨some ⟨"gpt-4", some "OpenAI", none,
            "A large multimodal model", none⟩, ⟨500, 150, 0, 0⟩⟩)
        [⟨7, "gpt-4", "GPT-4", "OpenAI", none, none, none⟩] 8
        "GPT-4 was released by OpenAI").db
        = [⟨7, "gpt-4", "GPT-4", "OpenAI", none, none, none⟩]) :=
  ⟨⟨by decide, rfl, rfl, rfl, rfl⟩,
   duplicate_name_conflict.2 DEFAULT_MODEL "GPT-4 was released by OpenAI"
     (fun _ _ => .ok ⟨some ⟨"gpt-4", some "OpenAI", none,
         "A large multimodal model", none⟩, ⟨500, 150, 0, 0⟩⟩)
     [⟨7, "gpt-4", "GPT-4", "OpenAI", none, none, none⟩] 8
     ⟨some ⟨"gpt-4", some "OpenAI", none, "A large multimodal model", none⟩,
       ⟨500, 150, 0, 0⟩⟩
     ⟨"gpt-4", some "OpenAI", none, "A large multimodal model", none⟩
     ⟨"gpt-4", "gpt-4", "OpenAI", none, some "A large multimodal model", none, none⟩
     ⟨7, "gpt-4", "GPT-4", "OpenAI", none, none, none⟩
     (by decide) rfl rfl rfl rfl⟩

/-- C10: a whitespace-only string of length at least 10 passes the
`min_length=10` request validation (pydantic counts whitespace), then the
orchestrator's empty-input guard raises the ValueError with zero transport
calls, and the endpoint maps it to a 400 client error — the empty-input
branch is reachable through the public endpoint. -/
theorem whitespace_input_reaches_guard (model : String)
    (provider : ClaudeRequest → Nat → Except APIErr Response)
    (db : Catalogue) (nextId : Nat) (s : String)
    (hlen : 10 ≤ s.length) (hws : ∀ c ∈ s.data, pyIsSpace c = true) :
    extractRequestValid s = true ∧
    post_extract model provider db nextId s =
      ⟨.error (.http ⟨400, "Input text for extraction cannot be empty"⟩),
       db, 0⟩ := by
  have hg : pyStrip s = "" := (pyStrip_eq_empty_iff s).mpr hws
  have hv : extractRequestValid s = true := by
    simp only [extractRequestValid, decide_eq_true_eq]
    exact hlen
  refine ⟨hv, ?_⟩
  simp [post_extract, hv, extract_and_create_model,
    extract_model_data_guard_fire model provider s true hg]

/-- Witness for C10: twelve spaces pass the length bound and come back as
the 400 empty-input rejection with zero provider calls. -/
theorem whitespace_input_reaches_guard_witness :
    (10 ≤ ("            " : String).length ∧
      (∀ c ∈ ("            " : String).data, pyIsSpace c = true)) ∧
    (extractRequestValid "            " = true ∧
      post_extract DEFAULT_MODEL
          (fun _ _ => .ok ⟨none, ⟨0, 0, 0, 0⟩⟩) [] 1 "            " =
        ⟨.error (.http ⟨400, "Input text for extraction cannot be empty"⟩),
         [], 0⟩) :=
  ⟨⟨by decide, by decide⟩,
   whitespace_input_reaches_guard DEFAULT_MODEL
     (fun _ _ => .ok ⟨none, ⟨0, 0, 0, 0⟩⟩) [] 1 "            "
     (by decide) (by decide)⟩

end ModelCatalogue
